import Mathlib

/-!
Verification of the transfer/ledger engine of the insecure-banking repository.

The embedding models the code of `apps/transfers/views.py` (TransferView),
`apps/transfers/services.py` (TransferService.createNewTransfer and its
`@transaction.atomic` wrapper), `apps/transfers/models.py` (the Transfer model
and its ModelSerializationMixin) and `apps/banking/services.py`
(CashAccountService, CreditAccountService, ActivityService).

Monetary values are modelled as rationals; Python's `round(x, 2)` (which is
round-half-to-even) is modelled exactly on rationals by `round2`.
-/

namespace InsecureBanking

attribute [local semireducible] Rat.add Rat.mul Rat.sub Rat.inv

/-- Round-half-to-even of a rational to an integer, the rounding mode of
Python's builtin `round`, computed on the numerator and denominator: with
`f = ⌊q⌋` and remainder `r = num - f * den` (so the fractional part is
`r / den`), round down when `r/den < 1/2`, up when `r/den > 1/2`, and to the
even neighbour at exactly one half. -/
def roundHalfEven (q : ℚ) : ℤ :=
  let n := q.num
  let d : ℤ := (q.den : ℤ)
  let f := Int.fdiv n d
  let r := n - f * d
  if 2 * r < d then f
  else if d < 2 * r then f + 1
  else if f % 2 = 0 then f else f + 1

/-- Python's `round(q, 2)`: round to 2 decimal places, half to even. -/
def round2 (q : ℚ) : ℚ := (roundHalfEven (q * 100) : ℚ) / 100

/-- The fee computation performed at `views.py:109`:
`round((amount * feeRatePercent) / 100, 2)` (the spec's
`FeeCalculator.computeFee`). -/
def computeFee (amount feeRatePercent : ℚ) : ℚ :=
  round2 (amount * feeRatePercent / 100)

/-- The description truncation of `services.py:50`:
`transfer.description if len(transfer.description) <= 12 else transfer.description[0:12]`. -/
def truncDesc (s : String) : String :=
  if s.length ≤ 12 then s else s.take 12

/-- A calendar date (the value of Python's `date.today()`). -/
structure DateV where
  year : Nat
  month : Nat
  day : Nat
deriving DecidableEq, Repr

/-- The persisted `Transfer` model of `models.py` (the spec's
TransferProposal / LedgerRecord).  Field order follows `_meta.fields`:
the auto `id` primary key, then the declared fields.  `id` and `date` are
`Option` because an unsaved instance holds `None` there; `amount` of a fresh
`Transfer()` is Python `None`, modelled as `0` (it is always overwritten
before use). -/
structure Transfer where
  id : Option Nat
  fromAccount : String
  toAccount : String
  description : String
  amount : ℚ
  fee : ℚ
  username : String
  date : Option DateV
deriving DecidableEq, Repr

/-- A row of `web_cashaccount` (the fields the engine reads). -/
structure CashAccount where
  id : Nat
  number : String
  availableBalance : ℚ
  username : String
deriving DecidableEq, Repr

/-- A row of `web_transaction` (the spec's ActivityEntry). -/
structure ActivityRow where
  date : Option DateV
  description : String
  number : String
  amount : ℚ
  availableBalance : ℚ
deriving DecidableEq, Repr

/-- The database state visible to the engine: the `web_cashaccount` table it
reads, the sequence of balance-sink writes it issues against
`web_creditaccount` (each `UPDATE` recorded as `(cashAccountId, value)`),
the `web_transfer` table and the `web_transaction` table, both append-only. -/
structure DB where
  cashAccounts : List CashAccount
  creditWrites : List (Nat × ℚ)
  transfers : List Transfer
  transactions : List ActivityRow
deriving DecidableEq, Repr

/-- `TransferService.insert_transfer`: `INSERT INTO web_transfer ...`. -/
def insert_transfer (t : Transfer) (db : DB) : DB :=
  { db with transfers := db.transfers ++ [t] }

/-- The row selected by `... FROM web_cashaccount WHERE number = account`. -/
def findAccount (l : List CashAccount) (account : String) : Option CashAccount :=
  l.find? (fun a => a.number == account)

/-- `CashAccountService.get_from_account_actual_amount`:
`SELECT availableBalance FROM web_cashaccount WHERE number = account`,
`fetchone()[0]`; `none` models the `TypeError` raised when no row matches. -/
def get_from_account_actual_amount (db : DB) (account : String) : Option ℚ :=
  (findAccount db.cashAccounts account).map (fun a => a.availableBalance)

/-- `CashAccountService.get_id_from_number`:
`SELECT id FROM web_cashaccount WHERE number = account`, `fetchone()[0]`. -/
def get_id_from_number (db : DB) (account : String) : Option Nat :=
  (findAccount db.cashAccounts account).map (fun a => a.id)

/-- `CreditAccountService.update_credit_account`: issues
`UPDATE web_creditaccount SET availableBalance=value WHERE cashAccountId=id`;
modelled as appending the issued write to the balance-sink log. -/
def update_credit_account (cashAccountId : Nat) (value : ℚ) (db : DB) : DB :=
  { db with creditWrites := db.creditWrites ++ [(cashAccountId, value)] }

/-- `ActivityService.insert_new_activity`: `INSERT INTO web_transaction ...`. -/
def insert_new_activity (date : Option DateV) (description number : String)
    (amount availableBalance : ℚ) (db : DB) : DB :=
  { db with transactions := db.transactions ++
      [{ date := date, description := description, number := number,
         amount := amount, availableBalance := availableBalance }] }

/-- The body of `TransferService.createNewTransfer` (services.py:40-76),
step by step in source order, without the `@transaction.atomic` wrapper.
The first component is `none` when a step raises (an account number that does
not resolve); the second component is the database as the body has written it
so far (what would be left behind without a transaction). -/
def createNewTransferBody (t : Transfer) (db : DB) : Option Unit × DB :=
  let db := insert_transfer t db
  match get_from_account_actual_amount db t.fromAccount with
  | none => (none, db)
  | some actual_amount =>
    let amount_total := actual_amount - (t.amount + t.fee)
    let amount := actual_amount - t.amount
    let amount_with_fees := amount - t.fee
    match get_id_from_number db t.fromAccount with
    | none => (none, db)
    | some cash_account_id =>
      let db := update_credit_account cash_account_id (round2 amount_total) db
      let desc := truncDesc t.description
      let db := insert_new_activity t.date ("TRANSFER: " ++ desc) t.fromAccount
        (-(round2 t.amount)) (round2 amount) db
      let db := insert_new_activity t.date "TRANSFER FEE" t.fromAccount
        (-(round2 t.fee)) (round2 amount_with_fees) db
      match get_id_from_number db t.toAccount with
      | none => (none, db)
      | some to_cash_account_id =>
        match get_from_account_actual_amount db t.toAccount with
        | none => (none, db)
        | some to_actual_amount =>
          let to_amount_total := to_actual_amount + t.amount
          let db := update_credit_account to_cash_account_id (round2 to_amount_total) db
          let db := insert_new_activity t.date ("TRANSFER: $" ++ desc) t.toAccount
            (round2 t.amount) (round2 to_amount_total) db
          (some (), db)

/-- `TransferService.createNewTransfer` with its `@transaction.atomic`
decorator: every write of the call happens inside one database transaction,
so when the body raises, the transaction is rolled back and the database is
left exactly as it was before the call. -/
def createNewTransfer (t : Transfer) (db : DB) : Option Unit × DB :=
  match createNewTransferBody t db with
  | (some u, db') => (some u, db')
  | (none, _) => (none, db)

/-- A JSON value as stored in the session slot (the image of
`json.dumps(transfer.as_dict())` holds only strings, numbers and nulls). -/
inductive JVal where
  | null : JVal
  | str : String → JVal
  | num : ℚ → JVal
deriving DecidableEq, Repr

/-- `json.dumps(transfer.as_dict())` for the Transfer model:
`as_dict` walks `_meta.fields` in declaration order and collects each value;
`json.dumps` then encodes the map, raising `TypeError` (modelled as `none`)
when a value is a `datetime` object, which JSON cannot encode.  The
`dumps`/`loads` pair is mutually inverse on maps of strings, finite numbers
and nulls, so the session slot is modelled as holding the map itself. -/
def serializePending (t : Transfer) : Option (List (String × JVal)) :=
  match t.date with
  | some _ => none
  | none =>
    some [("id", match t.id with | none => JVal.null | some n => JVal.num n),
          ("fromAccount", JVal.str t.fromAccount),
          ("toAccount", JVal.str t.toAccount),
          ("description", JVal.str t.description),
          ("amount", JVal.num t.amount),
          ("fee", JVal.num t.fee),
          ("username", JVal.str t.username),
          ("date", JVal.null)]

/-- Decode a JSON value into a string field (image values are always strings). -/
def decodeStr : JVal → String
  | JVal.str s => s
  | _ => ""

/-- Decode a JSON value into a numeric field (image values are always numbers). -/
def decodeNum : JVal → ℚ
  | JVal.num q => q
  | _ => 0

/-- Decode a JSON value into the optional `id` field. -/
def decodeOptNat : JVal → Option Nat
  | JVal.num q => some q.num.toNat
  | _ => none

/-- One `setattr(self, key, value)` step of `ModelSerializationMixin.from_dict`,
dispatching the JSON value to the typed model field named by `key`. -/
def setField (t : Transfer) (key : String) (v : JVal) : Transfer :=
  if key = "id" then { t with id := decodeOptNat v }
  else if key = "fromAccount" then { t with fromAccount := decodeStr v }
  else if key = "toAccount" then { t with toAccount := decodeStr v }
  else if key = "description" then { t with description := decodeStr v }
  else if key = "amount" then { t with amount := decodeNum v }
  else if key = "fee" then { t with fee := decodeNum v }
  else if key = "username" then { t with username := decodeStr v }
  else if key = "date" then
    { t with date := match v with | JVal.null => none | _ => t.date }
  else t

/-- `ModelSerializationMixin.from_dict`: `for key, value in values.items():
setattr(self, key, value)`. -/
def from_dict (t : Transfer) (values : List (String × JVal)) : Transfer :=
  values.foldl (fun acc kv => setField acc kv.1 kv.2) t

/-- `Transfer()` with Django's field defaults: empty strings for CharFields,
`fee=20` from the model default, `None` for `id` and `date` (and for the
unset `amount`, modelled as `0`; `from_dict` overwrites it before any use). -/
def freshTransfer : Transfer :=
  { id := none, fromAccount := "", toAccount := "", description := "",
    amount := 0, fee := 20, username := "", date := none }

/-- The POST body of a submit: the five `TransferForm` fields. -/
structure FormData where
  fromAccount : String
  toAccount : String
  description : String
  amount : ℚ
  fee : ℚ
deriving DecidableEq, Repr

/-- `TransferForm(request.POST)` binding followed by `.instance`: the form
fields populated, the other model fields at their defaults. -/
def bindForm (f : FormData) : Transfer :=
  { id := none, fromAccount := f.fromAccount, toAccount := f.toAccount,
    description := f.description, amount := f.amount, fee := f.fee,
    username := "", date := none }

/-- An inbound POST request to the transfer view: whether the path ends in
`/confirm`, the optional `action` POST field, the bound form fields, and the
client's `accountType` cookie. -/
structure Request where
  pathConfirm : Bool
  action : Option String
  form : FormData
  accountTypeCookie : Option String
deriving DecidableEq, Repr

/-- The session state the workflow touches: the `pendingTransfer` slot. -/
structure Session where
  pendingTransfer : Option (List (String × JVal))
deriving DecidableEq, Repr

/-- The observable outcome of one request. -/
inductive Response where
  | reviewPage : Response
  | errorForm : Response
  | confirmationPage : Response
  | redirectTransfer : Response
  | serverError : Response
deriving DecidableEq, Repr

/-- `TransferView.transfer_check` (views.py:78-89): store the serialized
proposal in `request.session["pendingTransfer"]` and render
`transferCheck.html`; an unserializable proposal would raise (`serverError`). -/
def transfer_check (transfer : Transfer) (sess : Session) (db : DB) :
    Response × Session × DB :=
  match serializePending transfer with
  | some m => (Response.reviewPage, { pendingTransfer := some m }, db)
  | none => (Response.serverError, sess, db)

/-- The field updates of views.py:106-109, applied in source order: set
`username` and `date`, round the amount, then resolve the fee from the
already-rounded amount. -/
def resolveProposal (today : DateV) (user : String) (t : Transfer) : Transfer :=
  let t1 := { t with username := user, date := some today }
  let t2 := { t1 with amount := round2 t1.amount }
  { t2 with fee := computeFee t2.amount t2.fee }

/-- `TransferView.transfer_confirmation` (views.py:91-117): re-render
`newTransfer.html` with the error flag when the amount is `0.0`; otherwise
resolve the proposal and run `TransferService.createNewTransfer`.  An
exception from the service propagates (`serverError`) after the transaction
has rolled back. -/
def transfer_confirmation (today : DateV) (user : String) (t : Transfer)
    (_accountType : Option String) (sess : Session) (db : DB) :
    Response × Session × DB :=
  if t.amount = 0 then (Response.errorForm, sess, db)
  else
    let t' := resolveProposal today user t
    match createNewTransfer t' db with
    | (some _, db') => (Response.confirmationPage, sess, db')
    | (none, _) => (Response.serverError, sess, db)

/-- `TransferView.post` (views.py:56-76): on a `/confirm` path, read the
`action` field (a missing field raises), consume the pending proposal when
present and the action is `confirm`, else redirect to `/transfer`; on a
submit, bind the form and dispatch on the `accountType` cookie: `Personal`
goes through the review step, anything else executes immediately. -/
def post (today : DateV) (user : String) (req : Request) (sess : Session)
    (db : DB) : Response × Session × DB :=
  let accountType := req.accountTypeCookie
  if req.pathConfirm then
    match req.action with
    | none => (Response.serverError, sess, db)
    | some action =>
      match sess.pendingTransfer with
      | some m =>
        if action = "confirm" then
          let transfer := from_dict freshTransfer m
          transfer_confirmation today user transfer accountType
            { pendingTransfer := none } db
        else (Response.redirectTransfer, sess, db)
      | none => (Response.redirectTransfer, sess, db)
  else
    let transfer := bindForm req.form
    if accountType = some "Personal" then
      transfer_check transfer sess db
    else
      transfer_confirmation today user transfer accountType sess db

/-- One full request/response cycle around `TransferView.post`, including
Django's `SessionMiddleware.process_response`: the request-scoped session
mutations made by the view are saved back to the session store when the
request finishes normally, but the middleware skips the session save for
unhandled-exception (500) responses, so on a 500 the persisted session is
the one from before the request. -/
def handleRequest (today : DateV) (user : String) (req : Request)
    (sess : Session) (db : DB) : Response × Session × DB :=
  let r := post today user req sess db
  match r.1 with
  | Response.serverError => (Response.serverError, sess, r.2.2)
  | _ => r

section EngineLemmas

/-- Full characterization of the engine body when both account numbers
resolve: the ledger insert, the two balance-sink writes and the three
activity rows, in source order. -/
theorem createNewTransferBody_resolved (t : Transfer) (db : DB)
    (sid did : Nat) (S D : ℚ)
    (hS : get_from_account_actual_amount db t.fromAccount = some S)
    (hsid : get_id_from_number db t.fromAccount = some sid)
    (hdid : get_id_from_number db t.toAccount = some did)
    (hD : get_from_account_actual_amount db t.toAccount = some D) :
    createNewTransferBody t db =
      (some (),
       { db with
         transfers := db.transfers ++ [t],
         creditWrites := db.creditWrites ++
           [(sid, round2 (S - t.amount - t.fee)), (did, round2 (D + t.amount))],
         transactions := db.transactions ++
           [{ date := t.date, description := "TRANSFER: " ++ truncDesc t.description,
              number := t.fromAccount, amount := -(round2 t.amount),
              availableBalance := round2 (S - t.amount) },
            { date := t.date, description := "TRANSFER FEE",
              number := t.fromAccount, amount := -(round2 t.fee),
              availableBalance := round2 (S - t.amount - t.fee) },
            { date := t.date, description := "TRANSFER: $" ++ truncDesc t.description,
              number := t.toAccount, amount := round2 t.amount,
              availableBalance := round2 (D + t.amount) }] }) := by
  simp only [get_from_account_actual_amount, get_id_from_number] at hS hsid hdid hD
  simp only [createNewTransferBody, insert_transfer, update_credit_account,
    insert_new_activity, get_from_account_actual_amount, get_id_from_number,
    hS, hsid, hdid, hD]
  simp [sub_add_eq_sub_sub]

/-- Characterization of the engine body when the source account resolves but
the destination does not: the body fails after having inserted the ledger
record, issued the source balance-sink write and appended the two source
activity rows. -/
theorem createNewTransferBody_dest_missing (t : Transfer) (db : DB)
    (sid : Nat) (S : ℚ)
    (hS : get_from_account_actual_amount db t.fromAccount = some S)
    (hsid : get_id_from_number db t.fromAccount = some sid)
    (hdid : get_id_from_number db t.toAccount = none) :
    createNewTransferBody t db =
      (none,
       { db with
         transfers := db.transfers ++ [t],
         creditWrites := db.creditWrites ++
           [(sid, round2 (S - t.amount - t.fee))],
         transactions := db.transactions ++
           [{ date := t.date, description := "TRANSFER: " ++ truncDesc t.description,
              number := t.fromAccount, amount := -(round2 t.amount),
              availableBalance := round2 (S - t.amount) },
            { date := t.date, description := "TRANSFER FEE",
              number := t.fromAccount, amount := -(round2 t.fee),
              availableBalance := round2 (S - t.amount - t.fee) }] }) := by
  simp only [get_from_account_actual_amount, get_id_from_number] at hS hsid hdid
  simp only [createNewTransferBody, insert_transfer, update_credit_account,
    insert_new_activity, get_from_account_actual_amount, get_id_from_number,
    hS, hsid, hdid]
  simp [sub_add_eq_sub_sub]

/-- The `@transaction.atomic` wrapper discards every write when the body
raises. -/
theorem createNewTransfer_of_body_fail (t : Transfer) (db : DB)
    (h : (createNewTransferBody t db).1 = none) :
    createNewTransfer t db = (none, db) := by
  unfold createNewTransfer
  rcases hb : createNewTransferBody t db with ⟨o, db'⟩
  rw [hb] at h
  simp only at h
  subst h
  rfl

/-- The `@transaction.atomic` wrapper passes a successful body through. -/
theorem createNewTransfer_of_body_ok (t : Transfer) (db db' : DB)
    (h : createNewTransferBody t db = (some (), db')) :
    createNewTransfer t db = (some (), db') := by
  unfold createNewTransfer
  rw [h]

end EngineLemmas

/-- C1: for every confirmed transfer executed by the ledger engine with source
balance `S`, destination balance `D`, amount `A = t.amount` and absolute fee
`F = t.fee`, the source balance-sink write receives `round(S - A - F, 2)`, the
destination balance-sink write receives `round(D + A, 2)`, and exactly three
activity rows are written in the fixed order: source delta `-round(A,2)` with
resulting balance `round(S - A, 2)`, source delta `-round(F,2)` with resulting
balance `round(S - A - F, 2)`, then destination delta `round(A,2)` with
resulting balance `round(D + A, 2)`. -/
theorem c1_ledger_execution (t : Transfer) (db : DB) (sid did : Nat) (S D : ℚ)
    (hS : get_from_account_actual_amount db t.fromAccount = some S)
    (hsid : get_id_from_number db t.fromAccount = some sid)
    (hdid : get_id_from_number db t.toAccount = some did)
    (hD : get_from_account_actual_amount db t.toAccount = some D) :
    createNewTransfer t db =
      (some (),
       { db with
         transfers := db.transfers ++ [t],
         creditWrites := db.creditWrites ++
           [(sid, round2 (S - t.amount - t.fee)), (did, round2 (D + t.amount))],
         transactions := db.transactions ++
           [{ date := t.date, description := "TRANSFER: " ++ truncDesc t.description,
              number := t.fromAccount, amount := -(round2 t.amount),
              availableBalance := round2 (S - t.amount) },
            { date := t.date, description := "TRANSFER FEE",
              number := t.fromAccount, amount := -(round2 t.fee),
              availableBalance := round2 (S - t.amount - t.fee) },
            { date := t.date, description := "TRANSFER: $" ++ truncDesc t.description,
              number := t.toAccount, amount := round2 t.amount,
              availableBalance := round2 (D + t.amount) }] }) :=
  createNewTransfer_of_body_ok t db _
    (createNewTransferBody_resolved t db sid did S D hS hsid hdid hD)

/-- C1 witness: the spec scenario `S = 1000.00`, `A = 100.00`, `F = 20.00`:
the source sink receives `880.00`, and the deltas are `-100.00`, `-20.00`,
`+100.00` in that order. -/
theorem c1_ledger_execution_witness :
    createNewTransfer
      ({ id := none, fromAccount := "CH-100", toAccount := "CH-200",
         description := "rent", amount := 100, fee := 20, username := "alice",
         date := some ⟨2025, 10, 12⟩ } : Transfer)
      ({ cashAccounts := [⟨1, "CH-100", 1000, "alice"⟩, ⟨2, "CH-200", 500, "bob"⟩],
         creditWrites := [], transfers := [], transactions := [] } : DB) =
      (some (),
       { cashAccounts := [⟨1, "CH-100", 1000, "alice"⟩, ⟨2, "CH-200", 500, "bob"⟩],
         creditWrites := [(1, 880), (2, 600)],
         transfers := [⟨none, "CH-100", "CH-200", "rent", 100, 20, "alice",
                        some ⟨2025, 10, 12⟩⟩],
         transactions := [⟨some ⟨2025, 10, 12⟩, "TRANSFER: rent", "CH-100", -100, 900⟩,
                          ⟨some ⟨2025, 10, 12⟩, "TRANSFER FEE", "CH-100", -20, 880⟩,
                          ⟨some ⟨2025, 10, 12⟩, "TRANSFER: $rent", "CH-200", 100, 600⟩] }) := by
  have h := c1_ledger_execution
    ({ id := none, fromAccount := "CH-100", toAccount := "CH-200",
       description := "rent", amount := 100, fee := 20, username := "alice",
       date := some ⟨2025, 10, 12⟩ } : Transfer)
    ({ cashAccounts := [⟨1, "CH-100", 1000, "alice"⟩, ⟨2, "CH-200", 500, "bob"⟩],
       creditWrites := [], transfers := [], transactions := [] } : DB)
    1 2 1000 500 (by decide) (by decide) (by decide) (by decide)
  exact h.trans (by decide)

/-- C2: all writes of one `createNewTransfer` call happen inside one database
transaction (`@transaction.atomic`): when the destination account number does
not resolve at step 9 — after the ledger insert, the source balance-sink write
and the two source activity rows have already been performed by the body —
the call fails and every write is rolled back: the database afterwards is
exactly the one before the call. -/
theorem c2_atomic_rollback (t : Transfer) (db : DB) (sid : Nat) (S : ℚ)
    (hS : get_from_account_actual_amount db t.fromAccount = some S)
    (hsid : get_id_from_number db t.fromAccount = some sid)
    (hdid : get_id_from_number db t.toAccount = none) :
    (createNewTransferBody t db).1 = none ∧
    (createNewTransferBody t db).2.creditWrites =
      db.creditWrites ++ [(sid, round2 (S - t.amount - t.fee))] ∧
    createNewTransfer t db = (none, db) := by
  have hb := createNewTransferBody_dest_missing t db sid S hS hsid hdid
  exact ⟨by rw [hb], by rw [hb], createNewTransfer_of_body_fail t db (by rw [hb])⟩

/-- C2 witness: a concrete transfer to an unknown destination account fails
mid-sequence after the source balance-sink write, and the atomic wrapper
leaves the database unchanged. -/
theorem c2_atomic_rollback_witness :
    (createNewTransferBody
      ({ id := none, fromAccount := "CH-100", toAccount := "NO-SUCH",
         description := "d", amount := 100, fee := 20, username := "alice",
         date := none } : Transfer)
      ({ cashAccounts := [⟨1, "CH-100", 1000, "alice"⟩],
         creditWrites := [], transfers := [], transactions := [] } : DB)).1 = none ∧
    (createNewTransferBody
      ({ id := none, fromAccount := "CH-100", toAccount := "NO-SUCH",
         description := "d", amount := 100, fee := 20, username := "alice",
         date := none } : Transfer)
      ({ cashAccounts := [⟨1, "CH-100", 1000, "alice"⟩],
         creditWrites := [], transfers := [], transactions := [] } : DB)).2.creditWrites =
      [] ++ [(1, round2 (1000 - 100 - 20))] ∧
    createNewTransfer
      ({ id := none, fromAccount := "CH-100", toAccount := "NO-SUCH",
         description := "d", amount := 100, fee := 20, username := "alice",
         date := none } : Transfer)
      ({ cashAccounts := [⟨1, "CH-100", 1000, "alice"⟩],
         creditWrites := [], transfers := [], transactions := [] } : DB) =
      (none, { cashAccounts := [⟨1, "CH-100", 1000, "alice"⟩],
               creditWrites := [], transfers := [], transactions := [] }) :=
  c2_atomic_rollback
    ({ id := none, fromAccount := "CH-100", toAccount := "NO-SUCH",
       description := "d", amount := 100, fee := 20, username := "alice",
       date := none } : Transfer)
    ({ cashAccounts := [⟨1, "CH-100", 1000, "alice"⟩],
       creditWrites := [], transfers := [], transactions := [] } : DB)
    1 1000 (by decide) (by decide) (by decide)

/-- C7: the fee computation is the pure function
`round(amount * feeRatePercent / 100, 2)`; in particular
`computeFee(200.00, 2.5) = 5.00`, `computeFee(33.33, 2.5) = 0.83`, and a zero
amount yields a zero fee for every fee rate. -/
theorem c7_compute_fee_spec (r : ℚ) :
    computeFee 200 (5/2) = 5 ∧
    computeFee (3333/100) (5/2) = 83/100 ∧
    computeFee 0 r = 0 := by
  refine ⟨by decide, by decide, ?_⟩
  have h : (0 : ℚ) * r / 100 = 0 := by ring
  rw [computeFee, h]
  decide

/-- C7 witness: the fee facts at the concrete rate `7`. -/
theorem c7_compute_fee_spec_witness :
    computeFee 200 (5/2) = 5 ∧
    computeFee (3333/100) (5/2) = 83/100 ∧
    computeFee 0 7 = 0 :=
  c7_compute_fee_spec 7

/-- C9: serializing a TransferProposal into the session store and
deserializing it on confirm is lossless: whenever the proposal serializes
(i.e. for every proposal as stored at submit time), `from_dict` on a fresh
model reconstructs every field with exactly its original value. -/
theorem c9_roundtrip_lossless (t : Transfer) (m : List (String × JVal))
    (h : serializePending t = some m) :
    from_dict freshTransfer m = t := by
  obtain ⟨i, fa, ta, d, am, fe, u, dt⟩ := t
  cases dt with
  | some d0 => simp [serializePending] at h
  | none =>
    simp only [serializePending] at h
    obtain rfl := Option.some.inj h.symm
    cases i <;>
      simp [from_dict, setField, freshTransfer, decodeStr, decodeNum, decodeOptNat]

/-- C9 witness: a concrete proposal round-trips through the session store
unchanged. -/
theorem c9_roundtrip_lossless_witness :
    from_dict freshTransfer
      [("id", JVal.null), ("fromAccount", JVal.str "CH-1"),
       ("toAccount", JVal.str "CH-2"), ("description", JVal.str "Monthly rent payment"),
       ("amount", JVal.num (20001/200)), ("fee", JVal.num (5/2)),
       ("username", JVal.str ""), ("date", JVal.null)] =
      { id := none, fromAccount := "CH-1", toAccount := "CH-2",
        description := "Monthly rent payment", amount := 20001/200, fee := 5/2,
        username := "", date := none } :=
  c9_roundtrip_lossless
    ({ id := none, fromAccount := "CH-1", toAccount := "CH-2",
       description := "Monthly rent payment", amount := 20001/200, fee := 5/2,
       username := "", date := none } : Transfer)
    [("id", JVal.null), ("fromAccount", JVal.str "CH-1"),
     ("toAccount", JVal.str "CH-2"), ("description", JVal.str "Monthly rent payment"),
     ("amount", JVal.num (20001/200)), ("fee", JVal.num (5/2)),
     ("username", JVal.str ""), ("date", JVal.null)]
    (by decide)

/-- `transfer_confirmation` never touches the session it is handed: all its
branches pass the session through. -/
theorem transfer_confirmation_session (today : DateV) (u : String) (t : Transfer)
    (x : Option String) (sess : Session) (db : DB) :
    (transfer_confirmation today u t x sess db).2.1 = sess := by
  unfold transfer_confirmation
  split
  · rfl
  · rcases h : createNewTransfer (resolveProposal today u t) db with ⟨o, db'⟩
    cases o <;> simp [h]

/-- C3 counterexample: with the default `Personal` classification cookie, a
zero-amount submit does store a pending proposal in the session and renders
the review page, not the error form. -/
theorem c3_zero_amount_counterexample :
    post ⟨2025, 10, 12⟩ "alice"
      { pathConfirm := false, action := none,
        form := { fromAccount := "CH-1", toAccount := "CH-2", description := "d",
                  amount := 0, fee := 5 },
        accountTypeCookie := some "Personal" }
      { pendingTransfer := none }
      { cashAccounts := [], creditWrites := [], transfers := [], transactions := [] } =
      (Response.reviewPage,
       { pendingTransfer := some
          [("id", JVal.null), ("fromAccount", JVal.str "CH-1"),
           ("toAccount", JVal.str "CH-2"), ("description", JVal.str "d"),
           ("amount", JVal.num 0), ("fee", JVal.num 5),
           ("username", JVal.str ""), ("date", JVal.null)] },
       { cashAccounts := [], creditWrites := [], transfers := [], transactions := [] }) ∧
    Response.reviewPage ≠ Response.errorForm := by decide

/-- C3 amended: a zero-amount submit never invokes the ledger engine (the
database is unchanged on the submit, and a later confirm of the stored
zero-amount proposal re-renders the error form without touching the
database); with a non-`Personal` classification cookie no proposal is stored
and the error form is shown at submit time; with the `Personal` cookie the
zero-amount proposal IS stored in the session and the review page is shown —
the error flag only appears at confirmation time. -/
theorem c3_zero_amount_guard (today : DateV) (u : String) (req : Request)
    (sess : Session) (db : DB)
    (hpath : req.pathConfirm = false) (hamt : req.form.amount = 0) :
    (post today u req sess db).2.2 = db ∧
    (req.accountTypeCookie ≠ some "Personal" →
      post today u req sess db = (Response.errorForm, sess, db)) ∧
    (req.accountTypeCookie = some "Personal" →
      post today u req sess db =
        (Response.reviewPage,
         { pendingTransfer := serializePending (bindForm req.form) }, db)) ∧
    (∀ reqC : Request, reqC.pathConfirm = true → reqC.action = some "confirm" →
      post today u reqC
          { pendingTransfer := serializePending (bindForm req.form) } db =
        (Response.errorForm, { pendingTransfer := none }, db)) := by
  have hser : serializePending (bindForm req.form) =
      some [("id", JVal.null), ("fromAccount", JVal.str req.form.fromAccount),
            ("toAccount", JVal.str req.form.toAccount),
            ("description", JVal.str req.form.description),
            ("amount", JVal.num req.form.amount), ("fee", JVal.num req.form.fee),
            ("username", JVal.str ""), ("date", JVal.null)] := by
    simp [serializePending, bindForm]
  refine ⟨?_, ?_, ?_, ?_⟩
  · by_cases hc : req.accountTypeCookie = some "Personal"
    · simp [post, hpath, hc, transfer_check, hser]
    · simp [post, hpath, hc, transfer_confirmation, bindForm, hamt]
  · intro hne
    simp [post, hpath, hne, transfer_confirmation, bindForm, hamt]
  · intro hc
    simp [post, hpath, hc, transfer_check, hser]
  · intro reqC h1 h2
    simp [post, h1, h2, hser, from_dict, setField, decodeStr, decodeNum,
      decodeOptNat, transfer_confirmation, hamt]

/-- C3 amended witness: a zero-amount submit with a non-`Personal` cookie
re-renders the error form with no proposal stored. -/
theorem c3_zero_amount_guard_witness :
    post ⟨2025, 10, 12⟩ "alice"
      { pathConfirm := false, action := none,
        form := { fromAccount := "CH-1", toAccount := "CH-2", description := "d",
                  amount := 0, fee := 5 },
        accountTypeCookie := some "Business" }
      { pendingTransfer := none }
      { cashAccounts := [], creditWrites := [], transfers := [], transactions := [] } =
      (Response.errorForm, { pendingTransfer := none },
       { cashAccounts := [], creditWrites := [], transfers := [], transactions := [] }) :=
  (c3_zero_amount_guard ⟨2025, 10, 12⟩ "alice"
    { pathConfirm := false, action := none,
      form := { fromAccount := "CH-1", toAccount := "CH-2", description := "d",
                amount := 0, fee := 5 },
      accountTypeCookie := some "Business" }
    { pendingTransfer := none }
    { cashAccounts := [], creditWrites := [], transfers := [], transactions := [] }
    rfl rfl).2.1 (by decide)

/-- C4 counterexample: a `Personal` submit with amount `200.00` and fee rate
`2.5` stores a proposal whose `fee` field is the raw percentage `2.5`, not
the resolved absolute fee `computeFee(200, 2.5) = 5.00`. -/
theorem c4_stored_proposal_counterexample :
    (post ⟨2025, 10, 12⟩ "alice"
      { pathConfirm := false, action := none,
        form := { fromAccount := "CH-1", toAccount := "CH-2", description := "d",
                  amount := 200, fee := 5/2 },
        accountTypeCookie := some "Personal" }
      { pendingTransfer := none }
      { cashAccounts := [], creditWrites := [], transfers := [],
        transactions := [] }).2.1.pendingTransfer =
      some [("id", JVal.null), ("fromAccount", JVal.str "CH-1"),
            ("toAccount", JVal.str "CH-2"), ("description", JVal.str "d"),
            ("amount", JVal.num 200), ("fee", JVal.num (5/2)),
            ("username", JVal.str ""), ("date", JVal.null)] ∧
    computeFee 200 (5/2) = 5 ∧ (5/2 : ℚ) ≠ 5 := by decide

/-- C4 amended: a submit that reaches the review state stores the proposal
with the raw form values — the raw percentage fee and the unrounded amount;
the amount is rounded and the absolute fee resolved via `computeFee` (applied
to the already-rounded amount) only at confirmation time, after the proposal
is retrieved from the store and before the engine executes it. -/
theorem c4_fee_resolution_at_confirm (today : DateV) (u : String) (req : Request)
    (sess : Session) (db : DB)
    (hpath : req.pathConfirm = false)
    (hc : req.accountTypeCookie = some "Personal") :
    (post today u req sess db).2.1.pendingTransfer =
      some [("id", JVal.null), ("fromAccount", JVal.str req.form.fromAccount),
            ("toAccount", JVal.str req.form.toAccount),
            ("description", JVal.str req.form.description),
            ("amount", JVal.num req.form.amount), ("fee", JVal.num req.form.fee),
            ("username", JVal.str ""), ("date", JVal.null)] ∧
    (resolveProposal today u (bindForm req.form)).amount = round2 req.form.amount ∧
    (resolveProposal today u (bindForm req.form)).fee =
      computeFee (round2 req.form.amount) req.form.fee := by
  refine ⟨?_, ?_, ?_⟩
  · simp [post, hpath, hc, transfer_check, serializePending, bindForm]
  · simp [resolveProposal, bindForm]
  · simp [resolveProposal, bindForm]

/-- C4 amended witness: the concrete `200.00` at `2.5%` submit stores the raw
values, and confirmation resolves amount `200.00` and fee `5.00`. -/
theorem c4_fee_resolution_at_confirm_witness :
    (post ⟨2025, 10, 12⟩ "alice"
      { pathConfirm := false, action := none,
        form := { fromAccount := "CH-1", toAccount := "CH-2", description := "d",
                  amount := 200, fee := 5/2 },
        accountTypeCookie := some "Personal" }
      { pendingTransfer := none }
      { cashAccounts := [], creditWrites := [], transfers := [],
        transactions := [] }).2.1.pendingTransfer =
      some [("id", JVal.null), ("fromAccount", JVal.str "CH-1"),
            ("toAccount", JVal.str "CH-2"), ("description", JVal.str "d"),
            ("amount", JVal.num 200), ("fee", JVal.num (5/2)),
            ("username", JVal.str ""), ("date", JVal.null)] ∧
    (resolveProposal ⟨2025, 10, 12⟩ "alice"
        (bindForm { fromAccount := "CH-1", toAccount := "CH-2", description := "d",
                    amount := 200, fee := 5/2 })).amount = round2 200 ∧
    (resolveProposal ⟨2025, 10, 12⟩ "alice"
        (bindForm { fromAccount := "CH-1", toAccount := "CH-2", description := "d",
                    amount := 200, fee := 5/2 })).fee =
      computeFee (round2 200) (5/2) :=
  c4_fee_resolution_at_confirm ⟨2025, 10, 12⟩ "alice"
    { pathConfirm := false, action := none,
      form := { fromAccount := "CH-1", toAccount := "CH-2", description := "d",
                amount := 200, fee := 5/2 },
      accountTypeCookie := some "Personal" }
    { pendingTransfer := none }
    { cashAccounts := [], creditWrites := [], transfers := [], transactions := [] }
    rfl rfl

/-- C5: the pending proposal is single-use: any confirm request whose action
field is present but differs from `confirm`, or arriving when no pending
proposal exists in the session, is redirected to the bare transfer form with
no state mutation of any kind; and a confirm that does proceed removes the
stored proposal from the session before (and regardless of how) execution
finishes. -/
theorem c5_confirm_single_use (today : DateV) (u : String) (req : Request)
    (sess : Session) (db : DB) (a : String)
    (hpath : req.pathConfirm = true) (ha : req.action = some a) :
    ((sess.pendingTransfer = none ∨ a ≠ "confirm") →
      post today u req sess db = (Response.redirectTransfer, sess, db)) ∧
    (∀ m, sess.pendingTransfer = some m → a = "confirm" →
      (post today u req sess db).2.1 = { pendingTransfer := none }) := by
  constructor
  · rintro (hp | hne)
    · simp [post, hpath, ha, hp]
    · cases hp2 : sess.pendingTransfer with
      | none => simp [post, hpath, ha, hp2]
      | some m => simp [post, hpath, ha, hp2, hne]
  · intro m hm hconf
    subst hconf
    simp only [post, hpath, ha, hm, if_true]
    exact transfer_confirmation_session today u _ _ _ db

/-- C5 witness: a confirm request with action `cancel` and no pending
proposal redirects with session and database untouched. -/
theorem c5_confirm_single_use_witness :
    post ⟨2025, 10, 12⟩ "alice"
      { pathConfirm := true, action := some "cancel",
        form := { fromAccount := "", toAccount := "", description := "",
                  amount := 0, fee := 0 },
        accountTypeCookie := some "Personal" }
      { pendingTransfer := none }
      { cashAccounts := [], creditWrites := [], transfers := [], transactions := [] } =
      (Response.redirectTransfer, { pendingTransfer := none },
       { cashAccounts := [], creditWrites := [], transfers := [], transactions := [] }) :=
  (c5_confirm_single_use ⟨2025, 10, 12⟩ "alice"
    { pathConfirm := true, action := some "cancel",
      form := { fromAccount := "", toAccount := "", description := "",
                amount := 0, fee := 0 },
      accountTypeCookie := some "Personal" }
    { pendingTransfer := none }
    { cashAccounts := [], creditWrites := [], transfers := [], transactions := [] }
    "cancel" rfl rfl).1 (Or.inl rfl)

/-- C6: a submit whose classification cookie is anything other than
`Personal` bypasses the review state entirely: no pending proposal is stored
and the transfer is executed by the engine in the same request, while the
identical form data with the `Personal` cookie produces the review page, a
stored proposal and no execution; the classification is read only from the
cookie, never revalidated against server-held account data. -/
theorem c6_classification_bypass (today : DateV) (u : String) (req : Request)
    (sess : Session) (db : DB) (sid did : Nat) (S D : ℚ)
    (hpath : req.pathConfirm = false)
    (hcookie : req.accountTypeCookie ≠ some "Personal")
    (hamt : req.form.amount ≠ 0)
    (hS : get_from_account_actual_amount db req.form.fromAccount = some S)
    (hsid : get_id_from_number db req.form.fromAccount = some sid)
    (hdid : get_id_from_number db req.form.toAccount = some did)
    (hD : get_from_account_actual_amount db req.form.toAccount = some D) :
    post today u req sess db =
      (Response.confirmationPage, sess,
       (createNewTransfer (resolveProposal today u (bindForm req.form)) db).2) ∧
    (createNewTransfer (resolveProposal today u (bindForm req.form)) db).2.transfers =
      db.transfers ++ [resolveProposal today u (bindForm req.form)] ∧
    post today u { req with accountTypeCookie := some "Personal" } sess db =
      (Response.reviewPage,
       { pendingTransfer := serializePending (bindForm req.form) }, db) := by
  have hfrom : (resolveProposal today u (bindForm req.form)).fromAccount =
      req.form.fromAccount := by simp [resolveProposal, bindForm]
  have hto : (resolveProposal today u (bindForm req.form)).toAccount =
      req.form.toAccount := by simp [resolveProposal, bindForm]
  have hok := createNewTransferBody_resolved
    (resolveProposal today u (bindForm req.form)) db sid did S D
    (by rw [hfrom]; exact hS) (by rw [hfrom]; exact hsid)
    (by rw [hto]; exact hdid) (by rw [hto]; exact hD)
  have hct := createNewTransfer_of_body_ok _ db _ hok
  have hser : serializePending (bindForm req.form) =
      some [("id", JVal.null), ("fromAccount", JVal.str req.form.fromAccount),
            ("toAccount", JVal.str req.form.toAccount),
            ("description", JVal.str req.form.description),
            ("amount", JVal.num req.form.amount), ("fee", JVal.num req.form.fee),
            ("username", JVal.str ""), ("date", JVal.null)] := by
    simp [serializePending, bindForm]
  have hbamt : (bindForm req.form).amount = req.form.amount := rfl
  refine ⟨?_, ?_, ?_⟩
  · simp [post, hpath, hcookie, transfer_confirmation, hbamt, hamt, hct]
  · rw [hct]
  · simp [post, hpath, transfer_check, hser]

/-- C6 witness: the same form data executes immediately with a `Business`
cookie and is stored for review with the `Personal` cookie. -/
theorem c6_classification_bypass_witness :
    post ⟨2025, 10, 12⟩ "alice"
      { pathConfirm := false, action := none,
        form := { fromAccount := "CH-100", toAccount := "CH-200",
                  description := "d", amount := 100, fee := 10 },
        accountTypeCookie := some "Business" }
      { pendingTransfer := none }
      ({ cashAccounts := [⟨1, "CH-100", 1000, "alice"⟩, ⟨2, "CH-200", 500, "bob"⟩],
         creditWrites := [], transfers := [], transactions := [] } : DB) =
      (Response.confirmationPage, { pendingTransfer := none },
       { cashAccounts := [⟨1, "CH-100", 1000, "alice"⟩, ⟨2, "CH-200", 500, "bob"⟩],
         creditWrites := [(1, 890), (2, 600)],
         transfers := [⟨none, "CH-100", "CH-200", "d", 100, 10, "alice",
                        some ⟨2025, 10, 12⟩⟩],
         transactions := [⟨some ⟨2025, 10, 12⟩, "TRANSFER: d", "CH-100", -100, 900⟩,
                          ⟨some ⟨2025, 10, 12⟩, "TRANSFER FEE", "CH-100", -10, 890⟩,
                          ⟨some ⟨2025, 10, 12⟩, "TRANSFER: $d", "CH-200", 100, 600⟩] }) := by
  have h := (c6_classification_bypass ⟨2025, 10, 12⟩ "alice"
    { pathConfirm := false, action := none,
      form := { fromAccount := "CH-100", toAccount := "CH-200",
                description := "d", amount := 100, fee := 10 },
      accountTypeCookie := some "Business" }
    { pendingTransfer := none }
    ({ cashAccounts := [⟨1, "CH-100", 1000, "alice"⟩, ⟨2, "CH-200", 500, "bob"⟩],
       creditWrites := [], transfers := [], transactions := [] } : DB)
    1 2 1000 500 (by decide) (by decide) (by decide)
    (by decide) (by decide) (by decide) (by decide)).1
  exact h.trans (by decide)

/-- C10 counterexample: a confirm whose execution fails (unresolvable source
account) produces a 500 response, and the session save is skipped for 500
responses, so the pending proposal is still in the persisted session
afterwards, and retrying the same confirm on the resulting state re-attempts
execution (another 500) instead of being redirected as stale. -/
theorem c10_retry_counterexample :
    (handleRequest ⟨2025, 10, 12⟩ "alice"
      { pathConfirm := true, action := some "confirm",
        form := { fromAccount := "", toAccount := "", description := "",
                  amount := 0, fee := 0 },
        accountTypeCookie := some "Personal" }
      { pendingTransfer := some
         [("id", JVal.null), ("fromAccount", JVal.str "NO-SUCH"),
          ("toAccount", JVal.str "CH-2"), ("description", JVal.str "d"),
          ("amount", JVal.num 50), ("fee", JVal.num 5),
          ("username", JVal.str ""), ("date", JVal.null)] }
      { cashAccounts := [], creditWrites := [], transfers := [],
        transactions := [] }).2.1.pendingTransfer ≠ none ∧
    (handleRequest ⟨2025, 10, 12⟩ "alice"
      { pathConfirm := true, action := some "confirm",
        form := { fromAccount := "", toAccount := "", description := "",
                  amount := 0, fee := 0 },
        accountTypeCookie := some "Personal" }
      (handleRequest ⟨2025, 10, 12⟩ "alice"
        { pathConfirm := true, action := some "confirm",
          form := { fromAccount := "", toAccount := "", description := "",
                    amount := 0, fee := 0 },
          accountTypeCookie := some "Personal" }
        { pendingTransfer := some
           [("id", JVal.null), ("fromAccount", JVal.str "NO-SUCH"),
            ("toAccount", JVal.str "CH-2"), ("description", JVal.str "d"),
            ("amount", JVal.num 50), ("fee", JVal.num 5),
            ("username", JVal.str ""), ("date", JVal.null)] }
        { cashAccounts := [], creditWrites := [], transfers := [],
          transactions := [] }).2.1
      (handleRequest ⟨2025, 10, 12⟩ "alice"
        { pathConfirm := true, action := some "confirm",
          form := { fromAccount := "", toAccount := "", description := "",
                    amount := 0, fee := 0 },
          accountTypeCookie := some "Personal" }
        { pendingTransfer := some
           [("id", JVal.null), ("fromAccount", JVal.str "NO-SUCH"),
            ("toAccount", JVal.str "CH-2"), ("description", JVal.str "d"),
            ("amount", JVal.num 50), ("fee", JVal.num 5),
            ("username", JVal.str ""), ("date", JVal.null)] }
        { cashAccounts := [], creditWrites := [], transfers := [],
          transactions := [] }).2.2).1 = Response.serverError ∧
    Response.serverError ≠ Response.redirectTransfer := by decide

/-- C10 amended: on a confirm request the view deletes the pending proposal
from the request-scoped session before the engine executes it, but when
execution fails the unhandled exception yields a 500 response and the
session middleware skips the session save, so the deletion is not persisted:
after a failed confirm the proposal is still in the session store, the
database is unchanged (transaction rollback), and a retry of the same
confirm re-attempts execution instead of being redirected as stale. -/
theorem c10_session_survives_failed_confirm (today : DateV) (u : String)
    (req : Request) (sess : Session) (db : DB) (m : List (String × JVal))
    (hpath : req.pathConfirm = true) (ha : req.action = some "confirm")
    (hm : sess.pendingTransfer = some m)
    (hamt : (from_dict freshTransfer m).amount ≠ 0)
    (hfail : (createNewTransferBody
        (resolveProposal today u (from_dict freshTransfer m)) db).1 = none) :
    (post today u req sess db).2.1 = { pendingTransfer := none } ∧
    handleRequest today u req sess db = (Response.serverError, sess, db) ∧
    (handleRequest today u req sess db).2.1.pendingTransfer = some m ∧
    (handleRequest today u req
        (handleRequest today u req sess db).2.1
        (handleRequest today u req sess db).2.2).1 = Response.serverError := by
  have hroll := createNewTransfer_of_body_fail _ db hfail
  have hpost : post today u req sess db =
      (Response.serverError, { pendingTransfer := none }, db) := by
    simp [post, hpath, ha, hm, transfer_confirmation, hamt, hroll]
  have hhr : handleRequest today u req sess db =
      (Response.serverError, sess, db) := by
    simp [handleRequest, hpost]
  refine ⟨by rw [hpost], hhr, by rw [hhr]; exact hm, ?_⟩
  rw [hhr]
  simp [hhr]

/-- C10 amended witness: a concrete failed confirm keeps the proposal in the
persisted session, leaves the database untouched, and its retry re-attempts
execution. -/
theorem c10_session_survives_failed_confirm_witness :
    (post ⟨2026, 2, 3⟩ "erin"
      { pathConfirm := true, action := some "confirm",
        form := { fromAccount := "", toAccount := "", description := "",
                  amount := 0, fee := 0 },
        accountTypeCookie := some "Personal" }
      { pendingTransfer := some
         [("id", JVal.null), ("fromAccount", JVal.str "GHOST-1"),
          ("toAccount", JVal.str "CH-9"), ("description", JVal.str "x"),
          ("amount", JVal.num 75), ("fee", JVal.num 5),
          ("username", JVal.str ""), ("date", JVal.null)] }
      { cashAccounts := [], creditWrites := [], transfers := [],
        transactions := [] }).2.1 = { pendingTransfer := none } ∧
    handleRequest ⟨2026, 2, 3⟩ "erin"
      { pathConfirm := true, action := some "confirm",
        form := { fromAccount := "", toAccount := "", description := "",
                  amount := 0, fee := 0 },
        accountTypeCookie := some "Personal" }
      { pendingTransfer := some
         [("id", JVal.null), ("fromAccount", JVal.str "GHOST-1"),
          ("toAccount", JVal.str "CH-9"), ("description", JVal.str "x"),
          ("amount", JVal.num 75), ("fee", JVal.num 5),
          ("username", JVal.str ""), ("date", JVal.null)] }
      { cashAccounts := [], creditWrites := [], transfers := [],
        transactions := [] } =
      (Response.serverError,
       { pendingTransfer := some
          [("id", JVal.null), ("fromAccount", JVal.str "GHOST-1"),
           ("toAccount", JVal.str "CH-9"), ("description", JVal.str "x"),
           ("amount", JVal.num 75), ("fee", JVal.num 5),
           ("username", JVal.str ""), ("date", JVal.null)] },
       { cashAccounts := [], creditWrites := [], transfers := [],
         transactions := [] }) ∧
    (handleRequest ⟨2026, 2, 3⟩ "erin"
      { pathConfirm := true, action := some "confirm",
        form := { fromAccount := "", toAccount := "", description := "",
                  amount := 0, fee := 0 },
        accountTypeCookie := some "Personal" }
      { pendingTransfer := some
         [("id", JVal.null), ("fromAccount", JVal.str "GHOST-1"),
          ("toAccount", JVal.str "CH-9"), ("description", JVal.str "x"),
          ("amount", JVal.num 75), ("fee", JVal.num 5),
          ("username", JVal.str ""), ("date", JVal.null)] }
      { cashAccounts := [], creditWrites := [], transfers := [],
        transactions := [] }).2.1.pendingTransfer =
      some [("id", JVal.null), ("fromAccount", JVal.str "GHOST-1"),
            ("toAccount", JVal.str "CH-9"), ("description", JVal.str "x"),
            ("amount", JVal.num 75), ("fee", JVal.num 5),
            ("username", JVal.str ""), ("date", JVal.null)] ∧
    (handleRequest ⟨2026, 2, 3⟩ "erin"
      { pathConfirm := true, action := some "confirm",
        form := { fromAccount := "", toAccount := "", description := "",
                  amount := 0, fee := 0 },
        accountTypeCookie := some "Personal" }
      (handleRequest ⟨2026, 2, 3⟩ "erin"
        { pathConfirm := true, action := some "confirm",
          form := { fromAccount := "", toAccount := "", description := "",
                    amount := 0, fee := 0 },
          accountTypeCookie := some "Personal" }
        { pendingTransfer := some
           [("id", JVal.null), ("fromAccount", JVal.str "GHOST-1"),
            ("toAccount", JVal.str "CH-9"), ("description", JVal.str "x"),
            ("amount", JVal.num 75), ("fee", JVal.num 5),
            ("username", JVal.str ""), ("date", JVal.null)] }
        { cashAccounts := [], creditWrites := [], transfers := [],
          transactions := [] }).2.1
      (handleRequest ⟨2026, 2, 3⟩ "erin"
        { pathConfirm := true, action := some "confirm",
          form := { fromAccount := "", toAccount := "", description := "",
                    amount := 0, fee := 0 },
          accountTypeCookie := some "Personal" }
        { pendingTransfer := some
           [("id", JVal.null), ("fromAccount", JVal.str "GHOST-1"),
            ("toAccount", JVal.str "CH-9"), ("description", JVal.str "x"),
            ("amount", JVal.num 75), ("fee", JVal.num 5),
            ("username", JVal.str ""), ("date", JVal.null)] }
        { cashAccounts := [], creditWrites := [], transfers := [],
          transactions := [] }).2.2).1 = Response.serverError :=
  c10_session_survives_failed_confirm ⟨2026, 2, 3⟩ "erin"
    { pathConfirm := true, action := some "confirm",
      form := { fromAccount := "", toAccount := "", description := "",
                amount := 0, fee := 0 },
      accountTypeCookie := some "Personal" }
    { pendingTransfer := some
       [("id", JVal.null), ("fromAccount", JVal.str "GHOST-1"),
        ("toAccount", JVal.str "CH-9"), ("description", JVal.str "x"),
        ("amount", JVal.num 75), ("fee", JVal.num 5),
        ("username", JVal.str ""), ("date", JVal.null)] }
    { cashAccounts := [], creditWrites := [], transfers := [], transactions := [] }
    [("id", JVal.null), ("fromAccount", JVal.str "GHOST-1"),
     ("toAccount", JVal.str "CH-9"), ("description", JVal.str "x"),
     ("amount", JVal.num 75), ("fee", JVal.num 5),
     ("username", JVal.str ""), ("date", JVal.null)]
    rfl rfl rfl (by decide) (by decide)

/-- C8 counterexample: for the description `"Monthly rent payment"` the
source activity description produced by the engine is
`"TRANSFER: Monthly rent"` — the first 12 characters are `"Monthly rent"` —
and not the spec's `"TRANSFER: Monthly ren"`. -/
theorem c8_truncation_counterexample :
    ((createNewTransfer
      ({ id := none, fromAccount := "CH-100", toAccount := "CH-200",
         description := "Monthly rent payment", amount := 100, fee := 20,
         username := "alice", date := none } : Transfer)
      ({ cashAccounts := [⟨1, "CH-100", 1000, "alice"⟩, ⟨2, "CH-200", 500, "bob"⟩],
         creditWrites := [], transfers := [], transactions := [] } : DB)).2.transactions.map
        (fun r => r.description)) =
      ["TRANSFER: Monthly rent", "TRANSFER FEE", "TRANSFER: $Monthly rent"] ∧
    "TRANSFER: Monthly rent" ≠ "TRANSFER: Monthly ren" := by decide

/-- C8 amended: the source-account activity description is `"TRANSFER: "`
followed by the first 12 characters of the description when its length
exceeds 12 and the unmodified description otherwise, the destination-account
description the same with the `"TRANSFER: $"` label; for
`"Monthly rent payment"` this yields `"TRANSFER: Monthly rent"` (first 12 raw
characters, not word-boundary aware). -/
theorem c8_truncation_rule (t : Transfer) (db : DB) (sid did : Nat) (S D : ℚ)
    (hS : get_from_account_actual_amount db t.fromAccount = some S)
    (hsid : get_id_from_number db t.fromAccount = some sid)
    (hdid : get_id_from_number db t.toAccount = some did)
    (hD : get_from_account_actual_amount db t.toAccount = some D) :
    ((createNewTransfer t db).2.transactions.map (fun r => r.description)) =
      (db.transactions.map (fun r => r.description)) ++
      ["TRANSFER: " ++
         (if t.description.length ≤ 12 then t.description else t.description.take 12),
       "TRANSFER FEE",
       "TRANSFER: $" ++
         (if t.description.length ≤ 12 then t.description else t.description.take 12)] ∧
    (if ("Monthly rent payment" : String).length ≤ 12 then "Monthly rent payment"
     else ("Monthly rent payment" : String).take 12) = "Monthly rent" := by
  have hct := createNewTransfer_of_body_ok t db _
    (createNewTransferBody_resolved t db sid did S D hS hsid hdid hD)
  constructor
  · rw [hct]
    simp [truncDesc]
  · decide

/-- C8 amended witness: the engine run on a transfer described
`"Monthly rent payment"` produces the truncated activity descriptions. -/
theorem c8_truncation_rule_witness :
    ((createNewTransfer
      ({ id := none, fromAccount := "SV-1", toAccount := "SV-2",
         description := "Monthly rent payment", amount := 40, fee := 1,
         username := "carol", date := none } : Transfer)
      ({ cashAccounts := [⟨7, "SV-1", 300, "carol"⟩, ⟨8, "SV-2", 60, "dave"⟩],
         creditWrites := [], transfers := [], transactions := [] } : DB)).2.transactions.map
        (fun r => r.description)) =
      ["TRANSFER: Monthly rent", "TRANSFER FEE", "TRANSFER: $Monthly rent"] := by
  have h := (c8_truncation_rule
    ({ id := none, fromAccount := "SV-1", toAccount := "SV-2",
       description := "Monthly rent payment", amount := 40, fee := 1,
       username := "carol", date := none } : Transfer)
    ({ cashAccounts := [⟨7, "SV-1", 300, "carol"⟩, ⟨8, "SV-2", 60, "dave"⟩],
       creditWrites := [], transfers := [], transactions := [] } : DB)
    7 8 300 60 (by decide) (by decide) (by decide) (by decide)).1
  exact h.trans (by decide)

end InsecureBanking
